import Mathlib

/-!
Verification of the LiveKit edge-function request router
(src/Edge_Function/livekit-handler.ts) against its specification.

The handler is shallowly embedded: JSON values are an inductive type,
JavaScript coercions (truthiness, String(), Number(), nullish coalescing)
are explicit functions, the external platform SDK is an oracle recording
the calls the handler makes, and exceptions are Except values caught by
the top-level serve wrapper, mirroring the try/catch of the source.
-/

namespace Livekit

/-! ## JavaScript string primitives -/

/-- Character-list test: does the first list begin the second one. -/
def beginsWith : List Char → List Char → Bool
  | [], _ => true
  | _ :: _, [] => false
  | a :: as, b :: bs => a = b && beginsWith as bs

/-- Substring search on character lists: does pat occur inside the second list. -/
def hasSub (pat : List Char) : List Char → Bool
  | [] => beginsWith pat []
  | c :: rest => beginsWith pat (c :: rest) || hasSub pat rest

/-- Models JavaScript String.prototype.includes, used by the handler on the
content-type header (line 12 of the source). -/
def jsIncludes (s sub : String) : Bool := hasSub sub.toList s.toList

/-- Models JavaScript String.prototype.toLowerCase on the ASCII range, which
covers every action string the handler compares against (line 13). -/
def lowerStr (s : String) : String := String.mk (s.toList.map Char.toLower)

/-! ## JavaScript numbers and JSON values -/

/-- JavaScript numbers as the handler uses them: finite values are kept as
exact rationals (every concrete number the theorems evaluate is an integer,
where rationals and IEEE doubles agree); NaN and the infinities are explicit
so that the Number.isFinite check of line 16 is expressible. Negative zero
is identified with zero, matching its falsiness and its compare behavior. -/
inductive JsNum where
  | finite (q : Rat)
  | nan
  | posInf
  | negInf
deriving DecidableEq

/-! JSON values, as produced by JSON.parse on the request body. Arrays and
objects carry their own list types so that all recursion over Json is
structural and kernel-reducible. JSON.parse collapses duplicate object keys
(last wins), so object field lists are assumed duplicate-free. -/
mutual
inductive Json where
  | null
  | bool (b : Bool)
  | num (n : JsNum)
  | str (s : String)
  | arr (xs : JsonElems)
  | obj (fs : JsonFields)
deriving DecidableEq
inductive JsonElems where
  | nil
  | cons (hd : Json) (tl : JsonElems)
deriving DecidableEq
inductive JsonFields where
  | nil
  | cons (key : String) (val : Json) (tl : JsonFields)
deriving DecidableEq
end

/-- Field lookup in a JSON object literal. -/
def lookupField : JsonFields → String → Option Json
  | .nil, _ => none
  | .cons k v r, key => if k = key then some v else lookupField r key

/-- Models JavaScript member access body.k for the handler: a field of an
object, and undefined (none) on every non-object non-null value. Member
access on null throws; the handler models that throw explicitly at its
first member access (line 13), so jfield itself is only applied to
non-null values. -/
def jfield : Json → String → Option Json
  | .obj fs, k => lookupField fs k
  | _, _ => none

/-- Models JavaScript truthiness: null, false, 0, NaN and the empty string
are falsy, everything else (all objects and arrays included) is truthy. -/
def truthy : Json → Bool
  | .null => false
  | .bool b => b
  | .num (.finite q) => if q = 0 then false else true
  | .num .nan => false
  | .num .posInf => true
  | .num .negInf => true
  | .str s => if s = "" then false else true
  | .arr _ => true
  | .obj _ => true

/-- Models the nullish-coalescing operator (a ?? d) on a possibly-undefined
(none) left operand: the default is taken exactly on undefined and null. -/
def jsNullish : Option Json → Json → Json
  | some Json.null, d => d
  | some v, _ => v
  | none, d => d

/-- Models the logical-or operator (a || d) on a possibly-undefined (none)
left operand: the default is taken exactly when the left operand is falsy. -/
def jsOr : Option Json → Json → Json
  | some v, d => if truthy v then v else d
  | none, d => d

/-- Decimal representation of a JavaScript number, exact for integers (the
only numbers the handler ever turns into strings in the theorems below);
non-integral rationals are rendered as num/den, a deliberate simplification
of the shortest-round-trip formatting of doubles. -/
def numToString : JsNum → String
  | .nan => "NaN"
  | .posInf => "Infinity"
  | .negInf => "-Infinity"
  | .finite q => if q.den = 1 then toString q.num else toString q.num ++ "/" ++ toString q.den

/-! Models JavaScript String() conversion. Arrays join their elements with
commas (null elements become empty), plain objects become [object Object]. -/
mutual
def jsToString : Json → String
  | .null => "null"
  | .bool b => if b then "true" else "false"
  | .num n => numToString n
  | .str s => s
  | .arr xs => arrJoin xs
  | .obj _ => "[object Object]"
def arrJoin : JsonElems → String
  | .nil => ""
  | .cons Json.null .nil => ""
  | .cons x .nil => jsToString x
  | .cons Json.null r => "," ++ arrJoin r
  | .cons x r => jsToString x ++ "," ++ arrJoin r
end

/-- Escapes one character for a JSON string literal; quote and backslash are
escaped (control-character escapes are omitted: no theorem evaluates them). -/
def escChar (c : Char) : List Char :=
  if c = '"' then ['\\', '"'] else if c = '\\' then ['\\', '\\'] else [c]

/-- JSON string literal quoting, as JSON.stringify renders strings. -/
def quoteStr (s : String) : String :=
  "\"" ++ String.mk (s.toList.foldr (fun c acc => escChar c ++ acc) []) ++ "\""

/-! Models JSON.stringify, which the handler applies to the metadata values
(lines 44, 46, 80). Non-finite numbers render as null, as in JavaScript. -/
mutual
def stringifyJson : Json → String
  | .null => "null"
  | .bool b => if b then "true" else "false"
  | .num (.finite q) =>
      if q.den = 1 then toString q.num else toString q.num ++ "/" ++ toString q.den
  | .num _ => "null"
  | .str s => quoteStr s
  | .arr xs => "[" ++ stringifyElems xs ++ "]"
  | .obj fs => "\x7b" ++ stringifyFields fs ++ "\x7d"
def stringifyElems : JsonElems → String
  | .nil => ""
  | .cons x .nil => stringifyJson x
  | .cons x r => stringifyJson x ++ "," ++ stringifyElems r
def stringifyFields : JsonFields → String
  | .nil => ""
  | .cons k v .nil => quoteStr k ++ ":" ++ stringifyJson v
  | .cons k v r => quoteStr k ++ ":" ++ stringifyJson v ++ "," ++ stringifyFields r
end

/-! ## JavaScript Number() coercion -/

/-- Value of a list of decimal digit characters. -/
def digitsToNat (cs : List Char) : Nat :=
  cs.foldl (fun n c => n * 10 + (c.toNat - 48)) 0

/-- Parses an unsigned decimal numeral, with an optional fractional part,
exactly as Number() accepts (a lone dot is rejected, a trailing dot is
allowed). Exponent, hexadecimal, octal and binary forms are a deliberate
simplification: they map to none (hence NaN); no claim depends on them. -/
def parseDecChars (cs : List Char) : Option Rat :=
  let intPart := cs.takeWhile Char.isDigit
  let rest := cs.dropWhile Char.isDigit
  match rest with
  | [] => if intPart.isEmpty then none else some (digitsToNat intPart : Rat)
  | '.' :: fracChars =>
      if fracChars.all Char.isDigit && (!intPart.isEmpty || !fracChars.isEmpty) then
        some ((digitsToNat intPart : Rat) +
          (digitsToNat fracChars : Rat) / ((10 : Rat) ^ fracChars.length))
      else none
  | _ => none

/-- JavaScript whitespace stripped by Number() string conversion. -/
def isJsSpace (c : Char) : Bool :=
  c = ' ' || c = '\t' || c = '\n' || c = '\r' || c = '\x0b' || c = '\x0c'

/-- Signless part of string-to-number conversion: the Infinity literal or a
decimal numeral; anything else is NaN. -/
def jsUnsignedNumber (cs : List Char) (neg : Bool) : JsNum :=
  if cs = "Infinity".toList then (if neg then .negInf else .posInf)
  else
    match parseDecChars cs with
    | some q => .finite (if neg then -q else q)
    | none => .nan

/-- Models Number() on strings: trimmed-empty strings are 0, an optional
sign precedes the numeral or the Infinity literal. -/
def jsStringToNumber (s : String) : JsNum :=
  let t := ((s.toList.dropWhile isJsSpace).reverse.dropWhile isJsSpace).reverse
  if t.isEmpty then .finite 0
  else
    match t with
    | '-' :: r => jsUnsignedNumber r true
    | '+' :: r => jsUnsignedNumber r false
    | r => jsUnsignedNumber r false

/-- Models the Number() conversion applied at line 15 of the source: null
is 0, booleans are 0 or 1, strings are parsed, arrays and objects convert
through their String() form (so [] is 0 and a plain object is NaN). -/
def toNumber : Json → JsNum
  | .null => .finite 0
  | .bool b => .finite (if b then 1 else 0)
  | .num n => n
  | .str s => jsStringToNumber s
  | .arr xs => jsStringToNumber (jsToString (.arr xs))
  | .obj fs => jsStringToNumber (jsToString (.obj fs))

/-! ## Request-field extraction, exactly the expressions of the source -/

/-- The expression String(body.k || "") used for every required field of the
source (lines 38, 39, 76, 90, 108). -/
def reqField (body : Json) (k : String) : String :=
  jsToString (jsOr (jfield body k) (.str ""))

/-- Line 13: const action = String(body.action ?? "").toLowerCase(). -/
def actionOf (body : Json) : String :=
  lowerStr (jsToString (jsNullish (jfield body "action") (.str "")))

/-- Line 15: const ttlSec = Number(body.ttlSec ?? 3600). -/
def ttlOf (body : Json) : JsNum :=
  toNumber (jsNullish (jfield body "ttlSec") (.num (.finite 3600)))

/-- Line 16: the rejection condition !Number.isFinite(ttlSec) || ttlSec <= 0. -/
def ttlInvalid (n : JsNum) : Bool :=
  match n with
  | .finite q => decide (q ≤ 0)
  | _ => true

/-- Line 43: const agentMetadata = body.agentMetadata ?? body.metadata ?? \x7b\x7d,
followed by line 44: JSON.stringify of it (participant-token branch). -/
def participantAgentMetaJson (body : Json) : String :=
  stringifyJson (jsNullish (jfield body "agentMetadata")
    (jsNullish (jfield body "metadata") (.obj .nil)))

/-- Line 46: JSON.stringify(body.participantMetadata ?? \x7b\x7d). -/
def participantVisibleMetaJson (body : Json) : String :=
  stringifyJson (jsNullish (jfield body "participantMetadata") (.obj .nil))

/-- Lines 78-80: const agentMetadata = body.agentMetadata ?? \x7b\x7d, then
JSON.stringify of it (dispatch-agent branch, which never reads body.metadata). -/
def dispatchAgentMetaJson (body : Json) : String :=
  stringifyJson (jsNullish (jfield body "agentMetadata") (.obj .nil))

/-! ## Tokens, configuration and the SDK boundary -/

/-- Line 8 of the source: the single fixed agent name constant. -/
def AGENT_NAME : String := "interviewer-agent"

/-- The environment-derived configuration of lines 4-7 (the egress URL field
already carries its ?? LK_URL default resolved). -/
structure Config where
  lkKey : String
  lkSecret : String
  lkUrl : String
  lkEgressUrl : String
deriving DecidableEq

/-- The grant flags an AccessToken can carry; addGrant leaves unset flags
undefined, hence falsy, which the defaults mirror. -/
structure VideoGrant where
  roomCreate : Bool := false
  roomAdmin : Bool := false
  egress : Bool := false
  roomList : Bool := false
  roomJoin : Bool := false
  canPublish : Bool := false
  canSubscribe : Bool := false
  canPublishData : Bool := false
  room : Option String := none
deriving DecidableEq

/-- One entry of the roomConfig.agents list set at lines 60-67. -/
structure RoomAgentCfg where
  agentName : String
  metadata : String
deriving DecidableEq

/-- The state of an SDK AccessToken as the handler builds it: constructor
options (identity, ttl, metadata), the grant added by addGrant, and the
agent-dispatch entries of roomConfig. -/
structure AccessToken where
  apiKey : String
  apiSecret : String
  identity : Option String
  ttl : JsNum
  metadata : Option String
  grant : VideoGrant
  roomAgents : List RoomAgentCfg
deriving DecidableEq

/-- Rendering of a grant inside the modelled JWT payload. -/
def grantRepr (g : VideoGrant) : String :=
  (if g.roomCreate then "1" else "0") ++ (if g.roomAdmin then "1" else "0") ++
  (if g.egress then "1" else "0") ++ (if g.roomList then "1" else "0") ++
  (if g.roomJoin then "1" else "0") ++ (if g.canPublish then "1" else "0") ++
  (if g.canSubscribe then "1" else "0") ++ (if g.canPublishData then "1" else "0") ++
  (g.room.getD "")

/-- Rendering of the agent-dispatch entries inside the modelled JWT payload. -/
def agentsRepr : List RoomAgentCfg → String
  | [] => ""
  | a :: r => a.agentName ++ ":" ++ a.metadata ++ ";" ++ agentsRepr r

/-- Modelled from the spec: AccessToken.toJwt lives in the external platform
SDK, not in this repository; the spec describes its result as an opaque
signed credential embedding the token fields (expiry, grant set, agent
dispatch configuration). It is modelled as a deterministic serialization of
those fields; like every real JWT the result is a non-empty string. -/
def toJwt (t : AccessToken) : String :=
  "jwt." ++ t.apiKey ++ "." ++ (t.identity.getD "") ++ "." ++ numToString t.ttl ++ "." ++
    (t.metadata.getD "") ++ "." ++ grantRepr t.grant ++ "." ++ agentsRepr t.roomAgents

/-- Lines 21-31: the admin token, grants room-create, room-admin, egress and
room-list and nothing else; no identity, no metadata, no agent dispatch. -/
def adminToken (cfg : Config) (ttl : JsNum) : AccessToken :=
  { apiKey := cfg.lkKey, apiSecret := cfg.lkSecret, identity := none, ttl := ttl,
    metadata := none,
    grant := { roomCreate := true, roomAdmin := true, egress := true, roomList := true },
    roomAgents := [] }

/-- Lines 47-67: the participant token with room-scoped join and publish
grants and the roomConfig agent-dispatch entry carrying the fixed agent
name and the stringified agent metadata. -/
def participantToken (cfg : Config) (ttl : JsNum)
    (roomName identity participantMeta agentMetaJson : String) : AccessToken :=
  { apiKey := cfg.lkKey, apiSecret := cfg.lkSecret, identity := some identity, ttl := ttl,
    metadata := some participantMeta,
    grant := { roomJoin := true, room := some roomName, canPublish := true,
               canSubscribe := true, canPublishData := true },
    roomAgents := [{ agentName := AGENT_NAME, metadata := agentMetaJson }] }

/-- The management calls the handler can make against the external platform,
with the exact arguments it passes. -/
inductive ExtCall where
  | createDispatch (roomName agentName metadata : String)
  | startRoomCompositeEgress (roomName : String) (audioOnly : Bool) (fileType filepath : String)
  | stopEgress (egressId : String)
deriving DecidableEq

/-- Oracle for the outcomes of the external platform calls: each operation
either returns its SDK result or throws (an error string caught by the
top-level catch). createDispatch returns the dispatch handle passed through
verbatim; startRoomCompositeEgress returns the egressId of its result. -/
structure SdkBehavior where
  createDispatchRes : String → String → String → Except String Json
  startEgressRes : String → String → Except String String
  stopEgressRes : String → Except String Unit

/-! ## Responses, requests and the handler -/

/-- An HTTP response of the handler: every response is JSON-bodied with a
content-type application/json header (constant, hence not carried). -/
structure HttpResponse where
  status : Nat
  body : Json
deriving DecidableEq

/-- The json helper of the source (lines 124-131). -/
def jsonResponse (d : Json) (status : Nat) : HttpResponse := ⟨status, d⟩

/-- The bad helper of the source (lines 132-136). -/
def bad (status : Nat) (message : String) : HttpResponse :=
  jsonResponse (.obj (.cons "error" (.str message) .nil)) status

/-- The ttl rejection message of line 17. -/
def ttlErrMsg : String := "ttlSec must be a positive number (seconds)"

/-- The unknown-action message of line 116, listing the five valid actions. -/
def unknownActionMsg : String :=
  "Unknown action. Use one of: admin-token, participant-token, dispatch-agent, start-file-egress, stop-egress"

/-- The TypeError thrown by member access on a null body at line 13. -/
def nullBodyErr : String := "TypeError: Cannot read properties of null"

/-- An incoming request: the content-type header (none when absent) and the
outcome of await req.json() (an Except, since parsing a malformed body
throws). The parse outcome is only consulted when the content-type check of
line 12 passes. -/
structure HttpRequest where
  contentType : Option String
  jsonBody : Except String Json

/-- Lines 17-116 of the source: everything inside the try block after the
body has been obtained. Errors thrown during processing (the null-body
member access, and every failing platform call) are Except errors for the
top-level catch; the call list records the platform calls made, in order. -/
def handleBody (cfg : Config) (sdk : SdkBehavior) (now : Nat) (body : Json) :
    Except String HttpResponse × List ExtCall :=
  match body with
  | Json.null => (.error nullBodyErr, [])
  | _ =>
    if ttlInvalid (ttlOf body) then
      (.ok (bad 400 ttlErrMsg), [])
    else if actionOf body = "admin-token" then
      (.ok (jsonResponse (.obj (.cons "token" (.str (toJwt (adminToken cfg (ttlOf body)))) .nil)) 200), [])
    else if actionOf body = "participant-token" then
      if reqField body "roomName" = "" ∨ reqField body "identity" = "" then
        (.ok (bad 400 "roomName and identity are required"), [])
      else
        (.ok (jsonResponse (.obj (.cons "token"
            (.str (toJwt (participantToken cfg (ttlOf body) (reqField body "roomName")
              (reqField body "identity") (participantVisibleMetaJson body)
              (participantAgentMetaJson body))))
            (.cons "url" (.str cfg.lkUrl) .nil))) 200), [])
    else if actionOf body = "dispatch-agent" then
      if reqField body "roomName" = "" then
        (.ok (bad 400 "roomName required"), [])
      else
        match sdk.createDispatchRes (reqField body "roomName") AGENT_NAME (dispatchAgentMetaJson body) with
        | .ok res =>
            (.ok (jsonResponse (.obj (.cons "ok" (.bool true) (.cons "dispatch" res .nil))) 200),
             [ExtCall.createDispatch (reqField body "roomName") AGENT_NAME (dispatchAgentMetaJson body)])
        | .error e =>
            (.error e,
             [ExtCall.createDispatch (reqField body "roomName") AGENT_NAME (dispatchAgentMetaJson body)])
    else if actionOf body = "start-file-egress" then
      if reqField body "roomName" = "" then
        (.ok (bad 400 "roomName required"), [])
      else
        match sdk.startEgressRes (reqField body "roomName")
            ("recordings/" ++ reqField body "roomName" ++ "-" ++ Nat.repr now ++ ".mp4") with
        | .ok egressId =>
            (.ok (jsonResponse (.obj (.cons "ok" (.bool true) (.cons "egressId" (.str egressId) .nil))) 200),
             [ExtCall.startRoomCompositeEgress (reqField body "roomName") true "MP4"
               ("recordings/" ++ reqField body "roomName" ++ "-" ++ Nat.repr now ++ ".mp4")])
        | .error e =>
            (.error e,
             [ExtCall.startRoomCompositeEgress (reqField body "roomName") true "MP4"
               ("recordings/" ++ reqField body "roomName" ++ "-" ++ Nat.repr now ++ ".mp4")])
    else if actionOf body = "stop-egress" then
      if reqField body "egressId" = "" then
        (.ok (bad 400 "egressId required"), [])
      else
        match sdk.stopEgressRes (reqField body "egressId") with
        | .ok _ =>
            (.ok (jsonResponse (.obj (.cons "ok" (.bool true) .nil)) 200),
             [ExtCall.stopEgress (reqField body "egressId")])
        | .error e => (.error e, [ExtCall.stopEgress (reqField body "egressId")])
    else
      (.ok (bad 400 unknownActionMsg), [])

/-- Lines 11-12 of the source: the body is the parsed JSON exactly when the
content-type header (empty when absent) contains application/json, and an
empty object otherwise. -/
def parseBody (req : HttpRequest) : Except String Json :=
  if jsIncludes (req.contentType.getD "") "application/json" then req.jsonBody
  else .ok (.obj .nil)

/-- The whole try block: body acquisition then processing. -/
def serveCore (cfg : Config) (sdk : SdkBehavior) (now : Nat) (req : HttpRequest) :
    Except String HttpResponse × List ExtCall :=
  match parseBody req with
  | .error e => (.error e, [])
  | .ok body => handleBody cfg sdk now body

/-- Lines 9-122: the served handler; the catch of lines 117-121 turns any
thrown error into a 400 response carrying the stringified error. -/
def serve (cfg : Config) (sdk : SdkBehavior) (now : Nat) (req : HttpRequest) :
    HttpResponse × List ExtCall :=
  match serveCore cfg sdk now req with
  | (.ok r, calls) => (r, calls)
  | (.error e, calls) => (jsonResponse (.obj (.cons "error" (.str e) .nil)) 400, calls)

/-! ## Concrete fixtures for witnesses and counterexamples -/

/-- Builds a JSON object from an association list. -/
def fieldsOf : List (String × Json) → JsonFields
  | [] => .nil
  | (k, v) :: r => .cons k v (fieldsOf r)

/-- Convenience constructor for JSON objects. -/
def jobj (l : List (String × Json)) : Json := .obj (fieldsOf l)

/-- A concrete configuration for the witnesses. -/
def cfgEx : Config :=
  { lkKey := "APIkey", lkSecret := "APIsecret",
    lkUrl := "wss://example.livekit.cloud", lkEgressUrl := "wss://example.livekit.cloud" }

/-- An SDK oracle on which every platform call succeeds. -/
def sdkOk : SdkBehavior :=
  { createDispatchRes := fun _ _ _ => .ok (jobj []),
    startEgressRes := fun _ _ => .ok "EG_1",
    stopEgressRes := fun _ => .ok () }

/-- An SDK oracle on which every platform call throws. -/
def sdkBoom : SdkBehavior :=
  { createDispatchRes := fun _ _ _ => .error "boom",
    startEgressRes := fun _ _ => .error "boom",
    stopEgressRes := fun _ => .error "boom" }

/-- Wraps a body as a well-formed JSON POST request. -/
def reqOf (b : Json) : HttpRequest :=
  { contentType := some "application/json", jsonBody := .ok b }

/-- Additional fixture bodies used by the claim witnesses and counterexamples. -/
def c1VoiceBody : Json :=
  jobj [("action", .str "participant-token"), ("roomName", .str "room1"),
        ("identity", .str "alice"), ("mode", .str "voice")]

/-- The same participant request with mode text. -/
def c1TextBody : Json :=
  jobj [("action", .str "participant-token"), ("roomName", .str "room1"),
        ("identity", .str "alice"), ("mode", .str "text")]

/-- The same participant request with no mode field. -/
def c1NoModeBody : Json :=
  jobj [("action", .str "participant-token"), ("roomName", .str "room1"),
        ("identity", .str "alice")]

/-- An admin-token request with an invalid ttl. -/
def c3BadTtlBody : Json :=
  jobj [("action", .str "admin-token"), ("ttlSec", .num (.finite 0))]

/-- A dispatch-agent request missing its roomName. -/
def c4NoRoomBody : Json := jobj [("action", .str "dispatch-agent")]

/-- A dispatch-agent request missing its roomName and carrying an invalid ttl. -/
def c4BadTtlBody : Json :=
  jobj [("action", .str "dispatch-agent"), ("ttlSec", .num (.finite 0))]

/-- A request with an unknown action. -/
def c5FrobBody : Json := jobj [("action", .str "frobnicate")]

/-- A request with an unknown action and an invalid ttl. -/
def c5BadTtlBody : Json :=
  jobj [("action", .str "frobnicate"), ("ttlSec", .num (.finite 0))]

/-- A well-formed stop-egress request. -/
def c8StopBody : Json :=
  jobj [("action", .str "stop-egress"), ("egressId", .str "EG_123")]

/-- A stop-egress request with a non-empty egressId but an invalid ttl. -/
def c8BadTtlBody : Json :=
  jobj [("action", .str "stop-egress"), ("egressId", .str "EG_123"),
        ("ttlSec", .num (.finite 0))]

/-- A participant request whose two metadata fields are both present and null. -/
def c9NullBody : Json :=
  jobj [("action", .str "participant-token"), ("roomName", .str "room1"),
        ("identity", .str "alice"), ("agentMetadata", .null), ("metadata", .null)]

/-- A body carrying only a metadata field. -/
def c9MetaBody : Json := jobj [("metadata", jobj [("topic", .str "algebra")])]

/-- A stop-egress request whose egressId is a truthy empty array. -/
def c10ArrBody : Json :=
  jobj [("action", .str "stop-egress"), ("egressId", .arr .nil)]

/-- A stop-egress request with no egressId at all. -/
def c10NoIdBody : Json := jobj [("action", .str "stop-egress")]

/-! ## Shared lemmas -/

/-- Every modelled JWT is non-empty: it starts with a fixed prefix. -/
theorem toJwt_ne_empty (t : AccessToken) : toJwt t ≠ "" := by
  intro h
  have hl := congrArg String.length h
  rw [toJwt] at hl
  simp only [String.length_append] at hl
  rw [show ("jwt." : String).length = 4 from rfl, show ("" : String).length = 0 from rfl] at hl
  omega

/-- The decoded action string is empty on every body that is not a JSON
object, so a body with a non-empty action is an object. -/
theorem body_obj_of_action (body : Json) (a : String) (ha : actionOf body = a) (hne : a ≠ "") :
    ∃ fs, body = .obj fs := by
  cases body with
  | obj fs => exact ⟨fs, rfl⟩
  | null => exact absurd (show ("" : String) = a from ha).symm hne
  | bool b => exact absurd (show ("" : String) = a from ha).symm hne
  | num n => exact absurd (show ("" : String) = a from ha).symm hne
  | str s => exact absurd (show ("" : String) = a from ha).symm hne
  | arr xs => exact absurd (show ("" : String) = a from ha).symm hne

/-- Successful processing passes through the try/catch wrapper unchanged. -/
theorem serve_ok (cfg : Config) (sdk : SdkBehavior) (now : Nat) (req : HttpRequest)
    (body : Json) (r : HttpResponse) (calls : List ExtCall)
    (hp : parseBody req = .ok body) (hb : handleBody cfg sdk now body = (.ok r, calls)) :
    serve cfg sdk now req = (r, calls) := by
  simp only [serve, serveCore, hp, hb]

/-- Every response the try block produces has status 200 or 400. -/
theorem handleBody_ok_status (cfg : Config) (sdk : SdkBehavior) (now : Nat) (body : Json)
    (r : HttpResponse) (calls : List ExtCall)
    (h : handleBody cfg sdk now body = (.ok r, calls)) : r.status = 200 ∨ r.status = 400 := by
  cases body with
  | null =>
      rw [show handleBody cfg sdk now Json.null = (.error nullBodyErr, []) from rfl] at h
      simp at h
  | bool b =>
      rw [show handleBody cfg sdk now (Json.bool b) = (.ok (bad 400 unknownActionMsg), []) from rfl] at h
      injection h with h1 h2
      injection h1 with h1
      subst h1
      right
      rfl
  | num n =>
      rw [show handleBody cfg sdk now (Json.num n) = (.ok (bad 400 unknownActionMsg), []) from rfl] at h
      injection h with h1 h2
      injection h1 with h1
      subst h1
      right
      rfl
  | str s =>
      rw [show handleBody cfg sdk now (Json.str s) = (.ok (bad 400 unknownActionMsg), []) from rfl] at h
      injection h with h1 h2
      injection h1 with h1
      subst h1
      right
      rfl
  | arr xs =>
      rw [show handleBody cfg sdk now (Json.arr xs) = (.ok (bad 400 unknownActionMsg), []) from rfl] at h
      injection h with h1 h2
      injection h1 with h1
      subst h1
      right
      rfl
  | obj fs =>
      simp only [handleBody] at h
      repeat' split at h
      all_goals (injection h with h1 h2)
      all_goals
        (first
          | exact Except.noConfusion h1
          | (injection h1 with h1; subst h1; first | (left; rfl) | (right; rfl)))

/-- The nullish-coalescing default is not taken on a non-null defined value. -/
theorem jsNullish_some_ne (v d : Json) (h : v ≠ Json.null) : jsNullish (some v) d = v := by
  cases v with
  | null => exact absurd rfl h
  | bool b => rfl
  | num n => rfl
  | str s => rfl
  | arr xs => rfl
  | obj fs => rfl

/-! ## Claims -/

/-- C1 (corrected): for every participant-token request with valid ttlSec
and non-empty roomName and identity, the issued token carries exactly one
embedded agent-dispatch entry, and it always selects the fixed agent name
AGENT_NAME (interviewer-agent), independently of the mode field, with the
selected agent metadata passed through JSON-stringified. The original claim,
that the agent name is derived from mode (text-agent for text, voice-agent
for voice, a default otherwise), fails: the handler never reads mode. -/
theorem c1_fixed_agent_name (cfg : Config) (sdk : SdkBehavior) (now : Nat) (req : HttpRequest)
    (body : Json) (hp : parseBody req = .ok body)
    (ht : ttlInvalid (ttlOf body) = false) (ha : actionOf body = "participant-token")
    (hr : reqField body "roomName" ≠ "") (hi : reqField body "identity" ≠ "") :
    serve cfg sdk now req =
      (jsonResponse (.obj (.cons "token"
          (.str (toJwt (participantToken cfg (ttlOf body) (reqField body "roomName")
            (reqField body "identity") (participantVisibleMetaJson body)
            (participantAgentMetaJson body))))
          (.cons "url" (.str cfg.lkUrl) .nil))) 200, [])
    ∧ (participantToken cfg (ttlOf body) (reqField body "roomName") (reqField body "identity")
        (participantVisibleMetaJson body) (participantAgentMetaJson body)).roomAgents =
      [{ agentName := AGENT_NAME, metadata := participantAgentMetaJson body }] := by
  refine ⟨?_, rfl⟩
  obtain ⟨fs, rfl⟩ := body_obj_of_action body _ ha (by decide)
  refine serve_ok cfg sdk now req _ _ _ hp ?_
  unfold handleBody
  rw [ht, if_neg Bool.false_ne_true, ha,
    if_neg (by decide : ¬ (("participant-token" : String) = "admin-token")), if_pos rfl,
    if_neg (not_or.mpr ⟨hr, hi⟩)]

/-- C1 counterexample: the claimed derivation of the agent name from mode
does not exist in the code. Two participant-token requests differing only in
mode (voice versus text, and voice versus absent) produce identical
responses, and the issued token names the fixed agent AGENT_NAME, which is
the constant interviewer-agent: mode never selects a voice- or text-specific
agent name distinct from the default. -/
theorem c1_counterexample :
    serve cfgEx sdkOk 0 (reqOf c1VoiceBody) = serve cfgEx sdkOk 0 (reqOf c1TextBody)
    ∧ serve cfgEx sdkOk 0 (reqOf c1VoiceBody) = serve cfgEx sdkOk 0 (reqOf c1NoModeBody)
    ∧ (participantToken cfgEx (ttlOf c1VoiceBody) (reqField c1VoiceBody "roomName")
        (reqField c1VoiceBody "identity") (participantVisibleMetaJson c1VoiceBody)
        (participantAgentMetaJson c1VoiceBody)).roomAgents.map RoomAgentCfg.agentName =
      [AGENT_NAME]
    ∧ AGENT_NAME = "interviewer-agent" := by decide

/-- C1 witness: the amended theorem applied to the concrete voice-mode request. -/
theorem c1_witness :
    serve cfgEx sdkOk 0 (reqOf c1VoiceBody) =
      (jsonResponse (.obj (.cons "token"
          (.str (toJwt (participantToken cfgEx (ttlOf c1VoiceBody) (reqField c1VoiceBody "roomName")
            (reqField c1VoiceBody "identity") (participantVisibleMetaJson c1VoiceBody)
            (participantAgentMetaJson c1VoiceBody))))
          (.cons "url" (.str cfgEx.lkUrl) .nil))) 200, []) :=
  (c1_fixed_agent_name cfgEx sdkOk 0 (reqOf c1VoiceBody) c1VoiceBody rfl rfl rfl
    (by decide) (by decide)).1

/-- C2 (confirmed): every request is answered with status 200 or status 400
and nothing else, and whenever processing throws (the parse of a malformed
body, a null-body member access, or a failing platform call), the top-level
catch answers 400 with body carrying the stringified error. -/
theorem c2_catch_all (cfg : Config) (sdk : SdkBehavior) (now : Nat) (req : HttpRequest) :
    ((serve cfg sdk now req).fst.status = 200 ∨ (serve cfg sdk now req).fst.status = 400)
    ∧ (∀ e, (serveCore cfg sdk now req).fst = .error e →
        (serve cfg sdk now req).fst = jsonResponse (.obj (.cons "error" (.str e) .nil)) 400) := by
  constructor
  · rcases heq : serveCore cfg sdk now req with ⟨res, calls⟩
    cases res with
    | error e =>
        unfold serve
        rw [heq]
        right
        rfl
    | ok r =>
        unfold serve
        rw [heq]
        show r.status = 200 ∨ r.status = 400
        unfold serveCore at heq
        rcases hpb : parseBody req with e | b
        · rw [hpb] at heq
          simp at heq
        · rw [hpb] at heq
          exact handleBody_ok_status cfg sdk now b r calls heq
  · intro e he
    rcases heq : serveCore cfg sdk now req with ⟨res, calls⟩
    rw [heq] at he
    cases res with
    | ok r => exact Except.noConfusion he
    | error e2 =>
        injection he with he
        subst he
        unfold serve
        rw [heq]

/-- C2 witness: a stop-egress request on which the platform call throws boom
is answered 400 with the stringified error. -/
theorem c2_witness :
    (serve cfgEx sdkBoom 0 (reqOf c8StopBody)).fst =
      jsonResponse (.obj (.cons "error" (.str "boom") .nil)) 400 :=
  (c2_catch_all cfgEx sdkBoom 0 (reqOf c8StopBody)).2 "boom" rfl

/-- C3 (confirmed): on every request whose decoded body has a non-finite,
zero or negative ttlSec (after the 3600 default), the handler answers the
ttl rejection, a 400, before any action-specific processing and with no
platform call; and no request with a valid ttlSec is ever answered with
that rejection by the try block. -/
theorem c3_ttl_gate (cfg : Config) (sdk : SdkBehavior) (now : Nat) (req : HttpRequest)
    (body : Json) (hp : parseBody req = .ok body) :
    (ttlInvalid (ttlOf body) = true → serve cfg sdk now req = (bad 400 ttlErrMsg, []))
    ∧ (ttlInvalid (ttlOf body) = false →
        (serveCore cfg sdk now req).fst ≠ .ok (bad 400 ttlErrMsg)) := by
  constructor
  · intro hbad
    cases body with
    | null => exact absurd hbad Bool.false_ne_true
    | bool b => exact absurd hbad Bool.false_ne_true
    | num n => exact absurd hbad Bool.false_ne_true
    | str s => exact absurd hbad Bool.false_ne_true
    | arr xs => exact absurd hbad Bool.false_ne_true
    | obj fs =>
        refine serve_ok cfg sdk now req _ _ _ hp ?_
        unfold handleBody
        rw [if_pos hbad]
  · intro hgood hcon
    have hcon2 : (handleBody cfg sdk now body).fst = .ok (bad 400 ttlErrMsg) := by
      unfold serveCore at hcon
      rw [hp] at hcon
      exact hcon
    cases body with
    | null =>
        exact Except.noConfusion
          (show (Except.error nullBodyErr : Except String HttpResponse) = .ok (bad 400 ttlErrMsg) from hcon2)
    | bool b =>
        have h1 := Except.ok.inj
          (show (Except.ok (bad 400 unknownActionMsg) : Except String HttpResponse) = .ok (bad 400 ttlErrMsg) from hcon2)
        exact absurd h1 (by decide)
    | num n =>
        have h1 := Except.ok.inj
          (show (Except.ok (bad 400 unknownActionMsg) : Except String HttpResponse) = .ok (bad 400 ttlErrMsg) from hcon2)
        exact absurd h1 (by decide)
    | str s =>
        have h1 := Except.ok.inj
          (show (Except.ok (bad 400 unknownActionMsg) : Except String HttpResponse) = .ok (bad 400 ttlErrMsg) from hcon2)
        exact absurd h1 (by decide)
    | arr xs =>
        have h1 := Except.ok.inj
          (show (Except.ok (bad 400 unknownActionMsg) : Except String HttpResponse) = .ok (bad 400 ttlErrMsg) from hcon2)
        exact absurd h1 (by decide)
    | obj fs =>
        simp only [handleBody] at hcon2
        rw [hgood, if_neg Bool.false_ne_true] at hcon2
        repeat' split at hcon2
        all_goals
          first
            | exact Except.noConfusion hcon2
            | (have h1 := Except.ok.inj hcon2
               first
                 | exact absurd h1 (by decide)
                 | exact (by decide : ¬ ((200 : Nat) = 400)) (congrArg HttpResponse.status h1))

/-- C3 witness: an admin-token request with ttlSec zero is rejected with the
ttl message regardless of its action. -/
theorem c3_witness :
    serve cfgEx sdkOk 0 (reqOf c3BadTtlBody) = (bad 400 ttlErrMsg, []) :=
  (c3_ttl_gate cfgEx sdkOk 0 (reqOf c3BadTtlBody) c3BadTtlBody rfl).1 rfl

/-- C4 (corrected): for every request with valid ttlSec, a missing or empty
roomName on participant-token, dispatch-agent or start-file-egress (and a
missing or empty identity on participant-token) is answered 400 with the
message naming the missing fields, with no platform call and no token in
the response. The original claim, without the ttlSec qualification, fails:
an invalid ttlSec preempts the field check and its message does not mention
the missing field. -/
theorem c4_missing_fields (cfg : Config) (sdk : SdkBehavior) (now : Nat) (req : HttpRequest)
    (body : Json) (hp : parseBody req = .ok body) (ht : ttlInvalid (ttlOf body) = false) :
    (actionOf body = "participant-token" →
      (reqField body "roomName" = "" ∨ reqField body "identity" = "") →
      serve cfg sdk now req = (bad 400 "roomName and identity are required", []))
    ∧ (actionOf body = "dispatch-agent" → reqField body "roomName" = "" →
      serve cfg sdk now req = (bad 400 "roomName required", []))
    ∧ (actionOf body = "start-file-egress" → reqField body "roomName" = "" →
      serve cfg sdk now req = (bad 400 "roomName required", [])) := by
  refine ⟨?_, ?_, ?_⟩
  · intro ha hm
    obtain ⟨fs, rfl⟩ := body_obj_of_action body _ ha (by decide)
    refine serve_ok cfg sdk now req _ _ _ hp ?_
    unfold handleBody
    rw [ht, if_neg Bool.false_ne_true, ha,
      if_neg (by decide : ¬ (("participant-token" : String) = "admin-token")), if_pos rfl,
      if_pos hm]
  · intro ha hm
    obtain ⟨fs, rfl⟩ := body_obj_of_action body _ ha (by decide)
    refine serve_ok cfg sdk now req _ _ _ hp ?_
    unfold handleBody
    rw [ht, if_neg Bool.false_ne_true, ha,
      if_neg (by decide : ¬ (("dispatch-agent" : String) = "admin-token")),
      if_neg (by decide : ¬ (("dispatch-agent" : String) = "participant-token")), if_pos rfl,
      if_pos hm]
  · intro ha hm
    obtain ⟨fs, rfl⟩ := body_obj_of_action body _ ha (by decide)
    refine serve_ok cfg sdk now req _ _ _ hp ?_
    unfold handleBody
    rw [ht, if_neg Bool.false_ne_true, ha,
      if_neg (by decide : ¬ (("start-file-egress" : String) = "admin-token")),
      if_neg (by decide : ¬ (("start-file-egress" : String) = "participant-token")),
      if_neg (by decide : ¬ (("start-file-egress" : String) = "dispatch-agent")), if_pos rfl,
      if_pos hm]

/-- C4 counterexample: a dispatch-agent request with no roomName but ttlSec
zero is answered with the ttl message, which does not mention roomName, so
the unqualified claim fails. -/
theorem c4_counterexample :
    serve cfgEx sdkOk 0 (reqOf c4BadTtlBody) = (bad 400 ttlErrMsg, [])
    ∧ actionOf c4BadTtlBody = "dispatch-agent"
    ∧ reqField c4BadTtlBody "roomName" = ""
    ∧ jsIncludes ttlErrMsg "roomName" = false := by decide

/-- C4 witness: a dispatch-agent request with default ttl and no roomName. -/
theorem c4_witness :
    serve cfgEx sdkOk 0 (reqOf c4NoRoomBody) = (bad 400 "roomName required", []) :=
  (c4_missing_fields cfgEx sdkOk 0 (reqOf c4NoRoomBody) c4NoRoomBody rfl rfl).2.1 rfl rfl

/-- C5 (corrected): for every request whose decoded non-null body has valid
ttlSec and whose case-insensitively decoded action is none of the five
valid ones, the handler answers 400 with the message listing exactly the
five valid actions. The original claim, without the ttlSec qualification,
fails: an invalid ttlSec preempts the action check with a message that does
not list the actions. -/
theorem c5_unknown_action (cfg : Config) (sdk : SdkBehavior) (now : Nat) (req : HttpRequest)
    (body : Json) (hp : parseBody req = .ok body) (hb : body ≠ Json.null)
    (ht : ttlInvalid (ttlOf body) = false)
    (ha : actionOf body ∉
      (["admin-token", "participant-token", "dispatch-agent", "start-file-egress",
        "stop-egress"] : List String)) :
    serve cfg sdk now req = (bad 400 unknownActionMsg, []) := by
  have h1 : actionOf body ≠ "admin-token" := fun h => ha (by rw [h]; simp)
  have h2 : actionOf body ≠ "participant-token" := fun h => ha (by rw [h]; simp)
  have h3 : actionOf body ≠ "dispatch-agent" := fun h => ha (by rw [h]; simp)
  have h4 : actionOf body ≠ "start-file-egress" := fun h => ha (by rw [h]; simp)
  have h5 : actionOf body ≠ "stop-egress" := fun h => ha (by rw [h]; simp)
  refine serve_ok cfg sdk now req _ _ _ hp ?_
  cases body with
  | null => exact absurd rfl hb
  | bool b => rfl
  | num n => rfl
  | str s => rfl
  | arr xs => rfl
  | obj fs =>
      unfold handleBody
      rw [ht, if_neg Bool.false_ne_true, if_neg h1, if_neg h2, if_neg h3, if_neg h4, if_neg h5]

/-- C5 counterexample: an unknown action with ttlSec zero is answered with
the ttl message, which does not list the valid actions. -/
theorem c5_counterexample :
    serve cfgEx sdkOk 0 (reqOf c5BadTtlBody) = (bad 400 ttlErrMsg, [])
    ∧ actionOf c5BadTtlBody = "frobnicate"
    ∧ jsIncludes ttlErrMsg "admin-token" = false := by decide

/-- C5 witness: the action frobnicate with default ttl gets the listing message. -/
theorem c5_witness :
    serve cfgEx sdkOk 0 (reqOf c5FrobBody) = (bad 400 unknownActionMsg, []) :=
  c5_unknown_action cfgEx sdkOk 0 (reqOf c5FrobBody) c5FrobBody rfl (by decide) rfl (by decide)

/-- C6 (confirmed): on every request whose content-type header is absent or
does not contain application/json, the body is treated as the empty object
whatever the real payload was, so the empty action fails the action
validation and the response is the 400 listing the valid actions, with no
platform call. -/
theorem c6_content_type (cfg : Config) (sdk : SdkBehavior) (now : Nat) (req : HttpRequest)
    (h : jsIncludes (Option.getD req.contentType "") "application/json" = false) :
    parseBody req = .ok (.obj .nil)
    ∧ serve cfg sdk now req = (bad 400 unknownActionMsg, []) := by
  have hp : parseBody req = .ok (.obj .nil) := by
    unfold parseBody
    rw [h, if_neg Bool.false_ne_true]
  exact ⟨hp, serve_ok cfg sdk now req _ _ _ hp rfl⟩

/-- C6 witness: a request without a content-type header whose body would be
a valid stop-egress request is still answered with the action 400. -/
theorem c6_witness :
    parseBody { contentType := none, jsonBody := .ok c8StopBody } = .ok (.obj .nil)
    ∧ serve cfgEx sdkOk 0 { contentType := none, jsonBody := .ok c8StopBody } =
        (bad 400 unknownActionMsg, []) :=
  c6_content_type cfgEx sdkOk 0 { contentType := none, jsonBody := .ok c8StopBody } rfl

/-- C7 (confirmed): every request whose action decodes case-insensitively to
admin-token and whose ttlSec is valid is answered 200 with a non-empty
token and no platform call, whatever its other fields; the grant set of the
issued token is exactly room-create, room-admin, egress and room-list. -/
theorem c7_admin_token (cfg : Config) (sdk : SdkBehavior) (now : Nat) (req : HttpRequest)
    (body : Json) (hp : parseBody req = .ok body)
    (ht : ttlInvalid (ttlOf body) = false) (ha : actionOf body = "admin-token") :
    serve cfg sdk now req =
      (jsonResponse (.obj (.cons "token" (.str (toJwt (adminToken cfg (ttlOf body)))) .nil)) 200, [])
    ∧ toJwt (adminToken cfg (ttlOf body)) ≠ ""
    ∧ (adminToken cfg (ttlOf body)).grant =
        { roomCreate := true, roomAdmin := true, egress := true, roomList := true,
          roomJoin := false, canPublish := false, canSubscribe := false, canPublishData := false,
          room := none } := by
  refine ⟨?_, toJwt_ne_empty _, rfl⟩
  obtain ⟨fs, rfl⟩ := body_obj_of_action body _ ha (by decide)
  refine serve_ok cfg sdk now req _ _ _ hp ?_
  unfold handleBody
  rw [ht, if_neg Bool.false_ne_true, ha, if_pos rfl]

/-- C7 witness: the concrete admin-token request with no other fields, with
the action decoded case-insensitively from Admin-Token. -/
theorem c7_witness :
    serve cfgEx sdkOk 0 (reqOf (jobj [("action", .str "Admin-Token")])) =
      (jsonResponse (.obj (.cons "token"
        (.str (toJwt (adminToken cfgEx (ttlOf (jobj [("action", .str "Admin-Token")]))))) .nil)) 200, [])
    ∧ toJwt (adminToken cfgEx (ttlOf (jobj [("action", .str "Admin-Token")]))) ≠ ""
    ∧ (adminToken cfgEx (ttlOf (jobj [("action", .str "Admin-Token")]))).grant =
        { roomCreate := true, roomAdmin := true, egress := true, roomList := true,
          roomJoin := false, canPublish := false, canSubscribe := false, canPublishData := false,
          room := none } :=
  c7_admin_token cfgEx sdkOk 0 (reqOf (jobj [("action", .str "Admin-Token")]))
    (jobj [("action", .str "Admin-Token")]) rfl rfl rfl

/-- C8 (corrected): for every stop-egress request with valid ttlSec and a
non-empty egressId, the platform stopEgress operation is invoked exactly
once with exactly that egressId, and on its success the handler answers 200
with body ok true. The original claim, without the ttlSec qualification,
fails: an invalid ttlSec preempts the branch and stopEgress is not invoked
at all. -/
theorem c8_stop_egress (cfg : Config) (sdk : SdkBehavior) (now : Nat) (req : HttpRequest)
    (body : Json) (eid : String) (hp : parseBody req = .ok body)
    (ht : ttlInvalid (ttlOf body) = false) (ha : actionOf body = "stop-egress")
    (he : reqField body "egressId" = eid) (hne : eid ≠ "")
    (hs : sdk.stopEgressRes eid = .ok ()) :
    serve cfg sdk now req =
      (jsonResponse (.obj (.cons "ok" (.bool true) .nil)) 200, [ExtCall.stopEgress eid]) := by
  obtain ⟨fs, rfl⟩ := body_obj_of_action body _ ha (by decide)
  refine serve_ok cfg sdk now req _ _ _ hp ?_
  unfold handleBody
  rw [ht, if_neg Bool.false_ne_true, ha,
    if_neg (by decide : ¬ (("stop-egress" : String) = "admin-token")),
    if_neg (by decide : ¬ (("stop-egress" : String) = "participant-token")),
    if_neg (by decide : ¬ (("stop-egress" : String) = "dispatch-agent")),
    if_neg (by decide : ¬ (("stop-egress" : String) = "start-file-egress")), if_pos rfl,
    he, if_neg hne, hs]

/-- C8 counterexample: a stop-egress request with egressId EG_123 but ttlSec
zero makes no platform call at all (the call trace is empty), so stopEgress
is not invoked exactly once as the unqualified claim requires. -/
theorem c8_counterexample :
    serve cfgEx sdkOk 0 (reqOf c8BadTtlBody) = (bad 400 ttlErrMsg, [])
    ∧ reqField c8BadTtlBody "egressId" = "EG_123" := by decide

/-- C8 witness: the concrete stop-egress request with egressId EG_123. -/
theorem c8_witness :
    serve cfgEx sdkOk 0 (reqOf c8StopBody) =
      (jsonResponse (.obj (.cons "ok" (.bool true) .nil)) 200, [ExtCall.stopEgress "EG_123"]) :=
  c8_stop_egress cfgEx sdkOk 0 (reqOf c8StopBody) c8StopBody "EG_123" rfl rfl rfl rfl
    (by decide) rfl

/-- C9 (corrected): in the participant-token branch a defined non-null
agentMetadata is the agent-dispatch metadata (JSON-stringified); when
agentMetadata is absent or null the metadata field is used if it is defined
and non-null, and the empty object exactly when both fields are absent or
null; the dispatch-agent branch reads only agentMetadata and ignores
metadata (its stringified selection is the empty object whenever
agentMetadata is absent or null, whatever metadata holds). The original
claim, which makes the fallback depend on absence alone, fails: a present
but null field is also skipped. -/
theorem c9_metadata_selection (body : Json) :
    (∀ v, jfield body "agentMetadata" = some v → v ≠ Json.null →
        participantAgentMetaJson body = stringifyJson v
        ∧ dispatchAgentMetaJson body = stringifyJson v)
    ∧ ((jfield body "agentMetadata" = none ∨ jfield body "agentMetadata" = some Json.null) →
        (∀ v, jfield body "metadata" = some v → v ≠ Json.null →
            participantAgentMetaJson body = stringifyJson v)
        ∧ dispatchAgentMetaJson body = stringifyJson (Json.obj .nil)
        ∧ ((jfield body "metadata" = none ∨ jfield body "metadata" = some Json.null) →
            participantAgentMetaJson body = stringifyJson (Json.obj .nil))) := by
  constructor
  · intro v hv hnn
    constructor
    · unfold participantAgentMetaJson
      rw [hv, jsNullish_some_ne _ _ hnn]
    · unfold dispatchAgentMetaJson
      rw [hv, jsNullish_some_ne _ _ hnn]
  · intro hA
    have hAred : jsNullish (jfield body "agentMetadata")
        (jsNullish (jfield body "metadata") (Json.obj .nil)) =
        jsNullish (jfield body "metadata") (Json.obj .nil) := by
      rcases hA with h | h <;> rw [h] <;> rfl
    have hAred2 : jsNullish (jfield body "agentMetadata") (Json.obj .nil) = Json.obj .nil := by
      rcases hA with h | h <;> rw [h] <;> rfl
    refine ⟨?_, ?_, ?_⟩
    · intro v hv hnn
      unfold participantAgentMetaJson
      rw [hAred, hv, jsNullish_some_ne _ _ hnn]
    · unfold dispatchAgentMetaJson
      rw [hAred2]
    · intro hM
      unfold participantAgentMetaJson
      rw [hAred]
      rcases hM with h | h <;> rw [h] <;> rfl

/-- C9 counterexample: a participant-token request whose agentMetadata and
metadata fields are both present (as null) still falls back to the empty
object, which flows into the issued token, contradicting the claim that the
fallback happens only when both are absent. -/
theorem c9_counterexample :
    (jfield c9NullBody "agentMetadata").isSome = true
    ∧ (jfield c9NullBody "metadata").isSome = true
    ∧ participantAgentMetaJson c9NullBody = stringifyJson (Json.obj .nil)
    ∧ serve cfgEx sdkOk 0 (reqOf c9NullBody) =
        (jsonResponse (.obj (.cons "token"
            (.str (toJwt (participantToken cfgEx (ttlOf c9NullBody) "room1" "alice"
              "\x7b\x7d" "\x7b\x7d")))
            (.cons "url" (.str cfgEx.lkUrl) .nil))) 200, []) := by decide

/-- C9 witness: with agentMetadata absent, the metadata field is the
participant-branch agent metadata, JSON-stringified. -/
theorem c9_witness :
    participantAgentMetaJson c9MetaBody = stringifyJson (jobj [("topic", .str "algebra")]) :=
  ((c9_metadata_selection c9MetaBody).2 (Or.inl rfl)).1 (jobj [("topic", .str "algebra")]) rfl
    (by decide)

/-- C10 (corrected): for every required string field, a falsy value
(missing, null, false, 0, NaN or the empty string) collapses to the empty
string and is rejected as missing with the branch 400; a truthy value is
kept and coerced with String(), and is accepted exactly when that string
conversion is non-empty. The original claim, that every truthy non-string
value is accepted as present, fails: a truthy value with an empty String()
conversion, such as an empty array, is still rejected. -/
theorem c10_field_coercion (cfg : Config) (sdk : SdkBehavior) (now : Nat) (body : Json)
    (ht : ttlInvalid (ttlOf body) = false) :
    (∀ v, truthy v = false → jsToString (jsOr (some v) (.str "")) = "")
    ∧ (∀ v, truthy v = true → jsOr (some v) (.str "") = v)
    ∧ (actionOf body = "stop-egress" →
        ((handleBody cfg sdk now body).fst = .ok (bad 400 "egressId required")
          ↔ reqField body "egressId" = ""))
    ∧ (actionOf body = "dispatch-agent" →
        ((handleBody cfg sdk now body).fst = .ok (bad 400 "roomName required")
          ↔ reqField body "roomName" = ""))
    ∧ (actionOf body = "start-file-egress" →
        ((handleBody cfg sdk now body).fst = .ok (bad 400 "roomName required")
          ↔ reqField body "roomName" = ""))
    ∧ (actionOf body = "participant-token" →
        ((handleBody cfg sdk now body).fst = .ok (bad 400 "roomName and identity are required")
          ↔ (reqField body "roomName" = "" ∨ reqField body "identity" = ""))) := by
  refine ⟨?_, ?_, ?_, ?_, ?_, ?_⟩
  · intro v hv
    rw [show jsOr (some v) (.str "") = if truthy v = true then v else .str "" from rfl, hv,
      if_neg Bool.false_ne_true]
    rfl
  · intro v hv
    rw [show jsOr (some v) (.str "") = if truthy v = true then v else .str "" from rfl, hv,
      if_pos rfl]
  · intro ha
    obtain ⟨fs, rfl⟩ := body_obj_of_action body _ ha (by decide)
    have hred : handleBody cfg sdk now (Json.obj fs) =
        (if reqField (Json.obj fs) "egressId" = "" then
          ((.ok (bad 400 "egressId required") : Except String HttpResponse), ([] : List ExtCall))
        else
          match sdk.stopEgressRes (reqField (Json.obj fs) "egressId") with
          | .ok _ =>
              (.ok (jsonResponse (.obj (.cons "ok" (.bool true) .nil)) 200),
               [ExtCall.stopEgress (reqField (Json.obj fs) "egressId")])
          | .error e => (.error e, [ExtCall.stopEgress (reqField (Json.obj fs) "egressId")])) := by
      unfold handleBody
      rw [ht, if_neg Bool.false_ne_true, ha,
        if_neg (by decide : ¬ (("stop-egress" : String) = "admin-token")),
        if_neg (by decide : ¬ (("stop-egress" : String) = "participant-token")),
        if_neg (by decide : ¬ (("stop-egress" : String) = "dispatch-agent")),
        if_neg (by decide : ¬ (("stop-egress" : String) = "start-file-egress")), if_pos rfl]
    rw [hred]
    by_cases hE : reqField (Json.obj fs) "egressId" = ""
    · rw [if_pos hE]
      exact iff_of_true rfl hE
    · rw [if_neg hE]
      refine iff_of_false ?_ hE
      rcases hS : sdk.stopEgressRes (reqField (Json.obj fs) "egressId") with e | u
      · exact fun hcon => Except.noConfusion hcon
      · exact fun hcon =>
          (by decide : ¬ ((200 : Nat) = 400)) (congrArg HttpResponse.status (Except.ok.inj hcon))
  · intro ha
    obtain ⟨fs, rfl⟩ := body_obj_of_action body _ ha (by decide)
    have hred : handleBody cfg sdk now (Json.obj fs) =
        (if reqField (Json.obj fs) "roomName" = "" then
          ((.ok (bad 400 "roomName required") : Except String HttpResponse), ([] : List ExtCall))
        else
          match sdk.createDispatchRes (reqField (Json.obj fs) "roomName") AGENT_NAME
              (dispatchAgentMetaJson (Json.obj fs)) with
          | .ok res =>
              (.ok (jsonResponse (.obj (.cons "ok" (.bool true) (.cons "dispatch" res .nil))) 200),
               [ExtCall.createDispatch (reqField (Json.obj fs) "roomName") AGENT_NAME
                 (dispatchAgentMetaJson (Json.obj fs))])
          | .error e =>
              (.error e,
               [ExtCall.createDispatch (reqField (Json.obj fs) "roomName") AGENT_NAME
                 (dispatchAgentMetaJson (Json.obj fs))])) := by
      unfold handleBody
      rw [ht, if_neg Bool.false_ne_true, ha,
        if_neg (by decide : ¬ (("dispatch-agent" : String) = "admin-token")),
        if_neg (by decide : ¬ (("dispatch-agent" : String) = "participant-token")), if_pos rfl]
    rw [hred]
    by_cases hE : reqField (Json.obj fs) "roomName" = ""
    · rw [if_pos hE]
      exact iff_of_true rfl hE
    · rw [if_neg hE]
      refine iff_of_false ?_ hE
      rcases hS : sdk.createDispatchRes (reqField (Json.obj fs) "roomName") AGENT_NAME
          (dispatchAgentMetaJson (Json.obj fs)) with e | r
      · exact fun hcon => Except.noConfusion hcon
      · exact fun hcon =>
          (by decide : ¬ ((200 : Nat) = 400)) (congrArg HttpResponse.status (Except.ok.inj hcon))
  · intro ha
    obtain ⟨fs, rfl⟩ := body_obj_of_action body _ ha (by decide)
    have hred : handleBody cfg sdk now (Json.obj fs) =
        (if reqField (Json.obj fs) "roomName" = "" then
          ((.ok (bad 400 "roomName required") : Except String HttpResponse), ([] : List ExtCall))
        else
          match sdk.startEgressRes (reqField (Json.obj fs) "roomName")
              ("recordings/" ++ reqField (Json.obj fs) "roomName" ++ "-" ++ Nat.repr now ++ ".mp4") with
          | .ok egressId =>
              (.ok (jsonResponse (.obj (.cons "ok" (.bool true)
                 (.cons "egressId" (.str egressId) .nil))) 200),
               [ExtCall.startRoomCompositeEgress (reqField (Json.obj fs) "roomName") true "MP4"
                 ("recordings/" ++ reqField (Json.obj fs) "roomName" ++ "-" ++ Nat.repr now ++ ".mp4")])
          | .error e =>
              (.error e,
               [ExtCall.startRoomCompositeEgress (reqField (Json.obj fs) "roomName") true "MP4"
                 ("recordings/" ++ reqField (Json.obj fs) "roomName" ++ "-" ++ Nat.repr now ++ ".mp4")])) := by
      unfold handleBody
      rw [ht, if_neg Bool.false_ne_true, ha,
        if_neg (by decide : ¬ (("start-file-egress" : String) = "admin-token")),
        if_neg (by decide : ¬ (("start-file-egress" : String) = "participant-token")),
        if_neg (by decide : ¬ (("start-file-egress" : String) = "dispatch-agent")), if_pos rfl]
    rw [hred]
    by_cases hE : reqField (Json.obj fs) "roomName" = ""
    · rw [if_pos hE]
      exact iff_of_true rfl hE
    · rw [if_neg hE]
      refine iff_of_false ?_ hE
      rcases hS : sdk.startEgressRes (reqField (Json.obj fs) "roomName")
          ("recordings/" ++ reqField (Json.obj fs) "roomName" ++ "-" ++ Nat.repr now ++ ".mp4") with e | r
      · exact fun hcon => Except.noConfusion hcon
      · exact fun hcon =>
          (by decide : ¬ ((200 : Nat) = 400)) (congrArg HttpResponse.status (Except.ok.inj hcon))
  · intro ha
    obtain ⟨fs, rfl⟩ := body_obj_of_action body _ ha (by decide)
    have hred : handleBody cfg sdk now (Json.obj fs) =
        (if reqField (Json.obj fs) "roomName" = "" ∨ reqField (Json.obj fs) "identity" = "" then
          ((.ok (bad 400 "roomName and identity are required") : Except String HttpResponse),
           ([] : List ExtCall))
        else
          (.ok (jsonResponse (.obj (.cons "token"
              (.str (toJwt (participantToken cfg (ttlOf (Json.obj fs)) (reqField (Json.obj fs) "roomName")
                (reqField (Json.obj fs) "identity") (participantVisibleMetaJson (Json.obj fs))
                (participantAgentMetaJson (Json.obj fs)))))
              (.cons "url" (.str cfg.lkUrl) .nil))) 200), [])) := by
      unfold handleBody
      rw [ht, if_neg Bool.false_ne_true, ha,
        if_neg (by decide : ¬ (("participant-token" : String) = "admin-token")), if_pos rfl]
    rw [hred]
    by_cases hE : reqField (Json.obj fs) "roomName" = "" ∨ reqField (Json.obj fs) "identity" = ""
    · rw [if_pos hE]
      exact iff_of_true rfl hE
    · rw [if_neg hE]
      refine iff_of_false ?_ hE
      exact fun hcon =>
        (by decide : ¬ ((200 : Nat) = 400)) (congrArg HttpResponse.status (Except.ok.inj hcon))

/-- C10 counterexample: an empty array is truthy and is not a string, yet
its String() conversion is empty, so a stop-egress request carrying it as
egressId is rejected as missing, contradicting the claim that every truthy
non-string value is accepted as present. -/
theorem c10_counterexample :
    truthy (Json.arr .nil) = true
    ∧ jsToString (Json.arr .nil) = ""
    ∧ serve cfgEx sdkOk 0 (reqOf c10ArrBody) = (bad 400 "egressId required", []) := by decide

/-- C10 witness: a stop-egress request with the egressId field missing is
rejected as missing. -/
theorem c10_witness :
    (handleBody cfgEx sdkOk 0 c10NoIdBody).fst = .ok (bad 400 "egressId required") :=
  ((c10_field_coercion cfgEx sdkOk 0 c10NoIdBody rfl).2.2.1 rfl).mpr rfl

end Livekit
